import Mathlib

/-!
Verification development for the fast-readability Python package.

The package (src/fast_readability) is a thin Python layer that runs
Mozilla's readability.js inside a QuickJS interpreter.  The Python layer
(readability.py, utils.py) is embedded here directly; the JavaScript core
(JSDOMParser.js, Readability.js, readability_wrapper.js) is not part of
the Python sources, so where a claim depends on it the JavaScript engine
is modelled abstractly (an `Engine` value whose outcomes parametrise the
Python control flow), and the content-extraction pipeline itself is
modelled from the specification (see the `SpecCore` section below).
-/

namespace FastReadability

/-- Model of a Python/JSON value as passed around by the package: options
dictionaries, converted QuickJS results, and article data.  Python floats
only appear here as the exact option default 0.0, modelled as a rational. -/
inductive PyVal where
  | none
  | bool (b : Bool)
  | int (n : Int)
  | float (q : Rat)
  | str (s : String)
  | list (xs : List PyVal)
  | dict (entries : List (String × PyVal))

/-- First-match association-list lookup, modelling Python dict key lookup
(dict keys are unique, so first-match agrees with Python). -/
def pyLookup (d : List (String × PyVal)) (k : String) : Option PyVal :=
  match d with
  | [] => Option.none
  | (k0, v) :: rest => if k0 = k then some v else pyLookup rest k

/-- Python `d.get(k)`: the stored value when the key is present, `None`
otherwise. -/
def pyGet (d : List (String × PyVal)) (k : String) : PyVal :=
  (pyLookup d k).getD PyVal.none

/-- Python `d.get(k, default)`. -/
def pyGetD (d : List (String × PyVal)) (k : String) (dflt : PyVal) : PyVal :=
  (pyLookup d k).getD dflt

/-- Python truthiness of a value (`bool(x)` / `if x:`). -/
def pyTruthy : PyVal → Bool
  | PyVal.none => false
  | PyVal.bool b => b
  | PyVal.int n => if n = 0 then false else true
  | PyVal.float q => if q = 0 then false else true
  | PyVal.str s => if s = "" then false else true
  | PyVal.list xs => if xs.length = 0 then false else true
  | PyVal.dict d => if d.length = 0 then false else true

/-- Python `str(x)` as used inside f-string error messages.  Only the
string case is exercised by concrete theorems; container reprs are
abbreviated. -/
def pyStr : PyVal → String
  | PyVal.none => "None"
  | PyVal.bool true => "True"
  | PyVal.bool false => "False"
  | PyVal.int n => toString n
  | PyVal.float q => toString q
  | PyVal.str s => s
  | PyVal.list _ => "<list>"
  | PyVal.dict _ => "<dict>"

/-- utils.get_default_options: the literal dictionary returned by the
source (utils.py lines 78-95), in source order. -/
def get_default_options : List (String × PyVal) :=
  [("debug", PyVal.bool false),
   ("maxElemsToParse", PyVal.int 0),
   ("nbTopCandidates", PyVal.int 5),
   ("charThreshold", PyVal.int 500),
   ("classesToPreserve", PyVal.list []),
   ("keepClasses", PyVal.bool false),
   ("disableJSONLD", PyVal.bool false),
   ("allowedVideoRegex", PyVal.none),
   ("linkDensityModifier", PyVal.int 0)]

/-- utils.create_custom_options (utils.py lines 98-136).  The Python
signature declares defaults char_threshold=500, keep_classes=False,
classes_to_preserve=None, max_elems_to_parse=0, nb_top_candidates=5,
debug=False, disable_json_ld=False, link_density_modifier=0.0; a None
classes_to_preserve is replaced by the empty list.  The float default 0.0
is modelled as the rational 0. -/
def create_custom_options (char_threshold : Int) (keep_classes : Bool)
    (classes_to_preserve : Option (List PyVal)) (max_elems_to_parse : Int)
    (nb_top_candidates : Int) (debug : Bool) (disable_json_ld : Bool)
    (link_density_modifier : Rat) : List (String × PyVal) :=
  [("debug", PyVal.bool debug),
   ("maxElemsToParse", PyVal.int max_elems_to_parse),
   ("nbTopCandidates", PyVal.int nb_top_candidates),
   ("charThreshold", PyVal.int char_threshold),
   ("classesToPreserve", PyVal.list (classes_to_preserve.getD [])),
   ("keepClasses", PyVal.bool keep_classes),
   ("disableJSONLD", PyVal.bool disable_json_ld),
   ("linkDensityModifier", PyVal.float link_density_modifier)]

/-- Result object of readability.py (dataclass ReadabilityResult).  Every
field is declared Optional with default None; fields hold whatever the
article dictionary supplied, so they are modelled as PyVal with None as
the absent value. -/
structure ReadabilityResult where
  title : PyVal
  content : PyVal
  text_content : PyVal
  length : PyVal
  excerpt : PyVal
  byline : PyVal
  dir : PyVal
  site_name : PyVal
  lang : PyVal
  published_time : PyVal

/-- The all-None ReadabilityResult, i.e. the Python `cls()` call with
every field left at its None default. -/
def emptyResult : ReadabilityResult :=
  ⟨PyVal.none, PyVal.none, PyVal.none, PyVal.none, PyVal.none,
   PyVal.none, PyVal.none, PyVal.none, PyVal.none, PyVal.none⟩

/-- ReadabilityResult.from_dict (readability.py lines 28-45): a falsy
argument (None, empty dict, and any other falsy value) yields the empty
result; a truthy dict is read field by field with `.get`; a truthy
non-dict value makes `.get` raise AttributeError, modelled as an error
string (the caller wraps it). -/
def ReadabilityResult.from_dict (data : PyVal) : Except String ReadabilityResult :=
  if pyTruthy data = false then Except.ok emptyResult
  else
    match data with
    | PyVal.dict d =>
        Except.ok
          ⟨pyGet d "title", pyGet d "content", pyGet d "textContent",
           pyGet d "length", pyGet d "excerpt", pyGet d "byline",
           pyGet d "dir", pyGet d "siteName", pyGet d "lang",
           pyGet d "publishedTime"⟩
    | _ => Except.error "AttributeError: object has no attribute get"

/-- Claim C6: get_default_options, and create_custom_options called with
its declared defaults (the Python no-argument call), both map
charThreshold to 500, maxElemsToParse to 0, nbTopCandidates to 5,
classesToPreserve to the empty list, keepClasses to false, disableJSONLD
to false, linkDensityModifier to zero (int 0 in the former, float 0.0 in
the latter; Python compares them equal), and debug to false. -/
theorem claim6_option_defaults :
    pyLookup get_default_options "charThreshold" = some (PyVal.int 500) ∧
    pyLookup get_default_options "maxElemsToParse" = some (PyVal.int 0) ∧
    pyLookup get_default_options "nbTopCandidates" = some (PyVal.int 5) ∧
    pyLookup get_default_options "classesToPreserve" = some (PyVal.list []) ∧
    pyLookup get_default_options "keepClasses" = some (PyVal.bool false) ∧
    pyLookup get_default_options "disableJSONLD" = some (PyVal.bool false) ∧
    pyLookup get_default_options "linkDensityModifier" = some (PyVal.int 0) ∧
    pyLookup get_default_options "debug" = some (PyVal.bool false) ∧
    pyLookup (create_custom_options 500 false Option.none 0 5 false false 0)
      "charThreshold" = some (PyVal.int 500) ∧
    pyLookup (create_custom_options 500 false Option.none 0 5 false false 0)
      "maxElemsToParse" = some (PyVal.int 0) ∧
    pyLookup (create_custom_options 500 false Option.none 0 5 false false 0)
      "nbTopCandidates" = some (PyVal.int 5) ∧
    pyLookup (create_custom_options 500 false Option.none 0 5 false false 0)
      "classesToPreserve" = some (PyVal.list []) ∧
    pyLookup (create_custom_options 500 false Option.none 0 5 false false 0)
      "keepClasses" = some (PyVal.bool false) ∧
    pyLookup (create_custom_options 500 false Option.none 0 5 false false 0)
      "disableJSONLD" = some (PyVal.bool false) ∧
    pyLookup (create_custom_options 500 false Option.none 0 5 false false 0)
      "linkDensityModifier" = some (PyVal.float 0) ∧
    pyLookup (create_custom_options 500 false Option.none 0 5 false false 0)
      "debug" = some (PyVal.bool false) := by
  repeat constructor

/-- Claim C7: for every dictionary (including the empty one) each of the
ten fields of from_dict's result is the corresponding entry when present
and None when absent (pyGet returns the entry or None), and the None
argument also yields the all-None result; absence is never an error. -/
theorem claim7_from_dict_fields : ∀ d : List (String × PyVal),
    ReadabilityResult.from_dict (PyVal.dict d) =
      Except.ok
        ⟨pyGet d "title", pyGet d "content", pyGet d "textContent",
         pyGet d "length", pyGet d "excerpt", pyGet d "byline",
         pyGet d "dir", pyGet d "siteName", pyGet d "lang",
         pyGet d "publishedTime"⟩ ∧
    ReadabilityResult.from_dict PyVal.none = Except.ok emptyResult := by
  intro d
  refine ⟨?_, rfl⟩
  cases d with
  | nil => rfl
  | cons p rest => rfl

/-- Claim C10: create_custom_options always returns exactly the eight
keys debug, maxElemsToParse, nbTopCandidates, charThreshold,
classesToPreserve, keepClasses, disableJSONLD, linkDensityModifier (so
never allowedVideoRegex), while get_default_options carries the extra
allowedVideoRegex key with value None, hence the two key sets differ. -/
theorem claim10_custom_options_keys :
    ∀ (ct : Int) (kc : Bool) (ctp : Option (List PyVal)) (me nt : Int)
      (dbg dj : Bool) (ld : Rat),
    (create_custom_options ct kc ctp me nt dbg dj ld).map Prod.fst =
      ["debug", "maxElemsToParse", "nbTopCandidates", "charThreshold",
       "classesToPreserve", "keepClasses", "disableJSONLD",
       "linkDensityModifier"] ∧
    pyLookup (create_custom_options ct kc ctp me nt dbg dj ld)
      "allowedVideoRegex" = Option.none ∧
    pyLookup get_default_options "allowedVideoRegex" = some PyVal.none ∧
    get_default_options.map Prod.fst ≠
      (create_custom_options ct kc ctp me nt dbg dj ld).map Prod.fst := by
  intro ct kc ctp me nt dbg dj ld
  refine ⟨rfl, rfl, rfl, ?_⟩
  intro h
  simp [get_default_options, create_custom_options] at h

/-- Custom exception of readability.py (class ReadabilityError): a single
exception class carrying only its message string. -/
structure ReadabilityError where
  msg : String

/-- A QuickJS context as configured by _initialize_context: Context() is
created and set_memory_limit / set_time_limit are applied to it before
any JavaScript is evaluated. -/
structure JSContext where
  memLimit : Nat
  timeLimit : Nat

/-- Instance state of the Readability class: the public configuration
memory_limit / time_limit set by __init__ (defaults 50 MB and 10 s) and
the lazily created interpreter state.  `context` models self._context,
`inited` models self._initialized (the source name contains a token this
development cannot use as an identifier). -/
structure Readability where
  memory_limit : Nat
  time_limit : Nat
  context : Option JSContext
  inited : Bool

/-- Readability() with the default limits (readability.py lines 58-69). -/
def defaultReadability : Readability :=
  ⟨50 * 1024 * 1024, 10, Option.none, false⟩

/-- Outcome of loading and evaluating the three bundled JavaScript files
inside _initialize_context.  The files are not part of the Python
sources, so only the Python-visible outcome is modelled: success, a
missing file (ReadabilityError raised by _load_js_file, then caught and
wrapped like any other exception), or any other exception. -/
inductive InitBehavior where
  | ok
  | fileNotFound (path : String)
  | evalError (msg : String)

/-- Outcome of one self._context.eval(js_code) call, already passed
through _convert_js_result.  `interrupted` is the exception QuickJS
raises when the configured memory or time budget is exceeded; `raises`
is any other exception escaping eval; `val` is a returned value after
conversion (_convert_js_result is total: every fallback path, including
the ultimate one, returns a dictionary). -/
inductive EvalOutcome where
  | interrupted (msg : String)
  | raises (msg : String)
  | val (conv : List (String × PyVal))

/-- The JavaScript side of the package, abstracted: the initialization
outcome plus, for each of the two generated js_code programs, a function
from the configured context and the (html, url, options) arguments to an
evaluation outcome.  Modelled from the spec: the JavaScript core
(JSDOMParser.js, Readability.js, readability_wrapper.js) ships outside
the Python sources; per the specification it is stateless between
invocations, so its behavior is a pure function of the context and the
call arguments. -/
structure Engine where
  initB : InitBehavior
  eval : JSContext → String → String → PyVal → EvalOutcome
  evalCheck : JSContext → String → String → PyVal → EvalOutcome

/-- Readability._initialize_context (readability.py lines 84-109): a
no-op when already initialized; otherwise it creates the context, applies
both limits to it, and evaluates the three files, marking the instance
initialized on success; any exception is caught and re-raised as
ReadabilityError with the "Failed to initialize JavaScript context: "
message (so a failed initialization leaves _context set but
_initialized still False). -/
def _init_context (st : Readability) (b : InitBehavior) :
    Readability × Option ReadabilityError :=
  if st.inited then (st, Option.none)
  else
    let st1 : Readability :=
      { st with context := some ⟨st.memory_limit, st.time_limit⟩ }
    match b with
    | InitBehavior.ok => ({ st1 with inited := true }, Option.none)
    | InitBehavior.fileNotFound p =>
        (st1, some ⟨"Failed to initialize JavaScript context: " ++
          ("JavaScript file not found: " ++ p)⟩)
    | InitBehavior.evalError m =>
        (st1, some ⟨"Failed to initialize JavaScript context: " ++ m⟩)

/-- Python `options if options is not None else {}` at the top of parse
and is_probably_readerable. -/
def normOptions (options : PyVal) : PyVal :=
  match options with
  | PyVal.none => PyVal.dict []
  | o => o

/-- Body of Readability.parse after initialization (the try block of
readability.py lines 188-221): evaluate the generated js_code, convert,
raise "JavaScript parsing failed: ..." when the reported success flag is
falsy, otherwise build the result with from_dict; every non-Readability
exception inside the block (eval raising — including a budget
interrupt —, a None context, from_dict on a truthy non-dict) is wrapped
as "Failed to parse HTML content: ...". -/
def parseBody (st1 : Readability) (f : JSContext → EvalOutcome) :
    Except ReadabilityError ReadabilityResult :=
  match st1.context with
  | Option.none =>
      Except.error ⟨"Failed to parse HTML content: " ++
        "NoneType object has no attribute eval"⟩
  | some ctx =>
    match f ctx with
    | EvalOutcome.interrupted m =>
        Except.error ⟨"Failed to parse HTML content: " ++ m⟩
    | EvalOutcome.raises m =>
        Except.error ⟨"Failed to parse HTML content: " ++ m⟩
    | EvalOutcome.val conv =>
      if pyTruthy (pyGetD conv "success" (PyVal.bool false)) then
        match ReadabilityResult.from_dict (pyGet conv "result") with
        | Except.ok r => Except.ok r
        | Except.error m =>
            Except.error ⟨"Failed to parse HTML content: " ++ m⟩
      else
        Except.error ⟨"JavaScript parsing failed: " ++
          pyStr (pyGetD conv "error" (PyVal.str "Unknown parsing error"))⟩

/-- Readability.parse (readability.py lines 163-221) as a state
transformer: initialize (propagating its ReadabilityError), then run the
body; the returned state is in every branch the post-initialization
state, since the body never assigns to self. -/
def parse (st : Readability) (eng : Engine) (html_content url : String)
    (options : PyVal) : Readability × Except ReadabilityError ReadabilityResult :=
  let opts := normOptions options
  match _init_context st eng.initB with
  | (st1, some e) => (st1, Except.error e)
  | (st1, Option.none) =>
      (st1, parseBody st1 (fun ctx => eng.eval ctx html_content url opts))

/-- Body of Readability.is_probably_readerable after initialization
(readability.py lines 248-279): same shape as parseBody, with
"JavaScript check failed: ..." for a falsy success flag (default message
"Unknown error"), bool(result.get("result", False)) on success, and
"Failed to check readability: ..." wrapping other exceptions. -/
def checkBody (st1 : Readability) (f : JSContext → EvalOutcome) :
    Except ReadabilityError Bool :=
  match st1.context with
  | Option.none =>
      Except.error ⟨"Failed to check readability: " ++
        "NoneType object has no attribute eval"⟩
  | some ctx =>
    match f ctx with
    | EvalOutcome.interrupted m =>
        Except.error ⟨"Failed to check readability: " ++ m⟩
    | EvalOutcome.raises m =>
        Except.error ⟨"Failed to check readability: " ++ m⟩
    | EvalOutcome.val conv =>
      if pyTruthy (pyGetD conv "success" (PyVal.bool false)) then
        Except.ok (pyTruthy (pyGetD conv "result" (PyVal.bool false)))
      else
        Except.error ⟨"JavaScript check failed: " ++
          pyStr (pyGetD conv "error" (PyVal.str "Unknown error"))⟩

/-- Readability.is_probably_readerable (readability.py lines 223-279). -/
def is_probably_readerable (st : Readability) (eng : Engine)
    (html_content url : String) (options : PyVal) :
    Readability × Except ReadabilityError Bool :=
  let opts := normOptions options
  match _init_context st eng.initB with
  | (st1, some e) => (st1, Except.error e)
  | (st1, Option.none) =>
      (st1, checkBody st1 (fun ctx => eng.evalCheck ctx html_content url opts))

/-- Outcome of `import requests` inside parse_from_url's try block. -/
inductive ImportOutcome where
  | ok
  | failed (msg : String)

/-- Outcome of requests.get plus raise_for_status: a fetched body, an
HTTP status error raised by raise_for_status (a RequestException), any
other RequestException from requests.get, or some other exception. -/
inductive FetchOutcome where
  | ok (text : String)
  | httpError (m : String)
  | requestExc (m : String)
  | otherExc (m : String)

/-- An exception escaping a Python call: either the package's
ReadabilityError or some other exception type. -/
inductive PyExc where
  | readability (e : ReadabilityError)
  | other (excType : String) (msg : String)

/-- Readability.parse_from_url (readability.py lines 281-324).  The
statement `import requests` sits inside the try block; if it raises, the
name `requests` stays unbound in the function scope, so evaluating the
first except clause `except requests.RequestException` itself raises
UnboundLocalError, which escapes unwrapped (Python aborts the handler
search when evaluating an except expression raises).  Otherwise fetch
errors become "Failed to fetch URL ...", a ReadabilityError from
self.parse is re-raised as is, and any other exception becomes
"Failed to parse URL ...". -/
def parse_from_url (st : Readability) (eng : Engine) (imp : ImportOutcome)
    (ftch : FetchOutcome) (url : String) (options : PyVal) :
    Readability × Except PyExc ReadabilityResult :=
  match imp with
  | ImportOutcome.failed _ =>
      (st, Except.error (PyExc.other "UnboundLocalError"
        "local variable requests referenced before assignment"))
  | ImportOutcome.ok =>
    match ftch with
    | FetchOutcome.requestExc m =>
        (st, Except.error (PyExc.readability
          ⟨"Failed to fetch URL " ++ url ++ ": " ++ m⟩))
    | FetchOutcome.httpError m =>
        (st, Except.error (PyExc.readability
          ⟨"Failed to fetch URL " ++ url ++ ": " ++ m⟩))
    | FetchOutcome.otherExc m =>
        (st, Except.error (PyExc.readability
          ⟨"Failed to parse URL " ++ url ++ ": " ++ m⟩))
    | FetchOutcome.ok text =>
      match parse st eng text url options with
      | (st1, Except.ok r) => (st1, Except.ok r)
      | (st1, Except.error e) => (st1, Except.error (PyExc.readability e))

/-- Engine whose parse call reports a JavaScript-side failure with
message "boom" (initialization succeeds). -/
def engBoom : Engine :=
  ⟨InitBehavior.ok,
   fun _ _ _ _ => EvalOutcome.val
     [("success", PyVal.bool false), ("error", PyVal.str "boom")],
   fun _ _ _ _ => EvalOutcome.val
     [("success", PyVal.bool false), ("error", PyVal.str "boom")]⟩

/-- Engine whose initialization fails because a bundled JavaScript file
is missing; its eval functions never interrupt (no resource budget is
ever exceeded) and would report success if reached. -/
def engNoFile : Engine :=
  ⟨InitBehavior.fileNotFound "JSDOMParser.js",
   fun _ _ _ _ =>
     EvalOutcome.val [("success", PyVal.bool true), ("result", PyVal.bool true)],
   fun _ _ _ _ =>
     EvalOutcome.val [("success", PyVal.bool true), ("result", PyVal.bool true)]⟩

/-- Engine whose evaluation always hits the configured budget and is
interrupted by QuickJS. -/
def engInterrupt : Engine :=
  ⟨InitBehavior.ok,
   fun _ _ _ _ => EvalOutcome.interrupted "interrupted",
   fun _ _ _ _ => EvalOutcome.interrupted "interrupted"⟩

theorem _init_context_limits (st : Readability) (b : InitBehavior) :
    ((_init_context st b).1).memory_limit = st.memory_limit ∧
    ((_init_context st b).1).time_limit = st.time_limit := by
  by_cases hi : st.inited <;> cases b <;> simp [_init_context, hi]

theorem _init_context_sets_context (st : Readability) (b : InitBehavior)
    (hin : st.inited = false) :
    ((_init_context st b).1).context = some ⟨st.memory_limit, st.time_limit⟩ := by
  cases b <;> simp [_init_context, hin]

theorem _init_context_idem (st : Readability) (b : InitBehavior) :
    _init_context (_init_context st b).1 b = _init_context st b := by
  obtain ⟨ml, tl, cx, ii⟩ := st
  cases ii with
  | true => simp [_init_context]
  | false => cases b <;> simp [_init_context]

theorem parse_fst (st : Readability) (eng : Engine) (h u : String) (o : PyVal) :
    (parse st eng h u o).1 = (_init_context st eng.initB).1 := by
  unfold parse
  rcases hinit : _init_context st eng.initB with ⟨st1, e⟩
  cases e <;> simp [hinit]

theorem check_fst (st : Readability) (eng : Engine) (h u : String) (o : PyVal) :
    (is_probably_readerable st eng h u o).1 = (_init_context st eng.initB).1 := by
  unfold is_probably_readerable
  rcases hinit : _init_context st eng.initB with ⟨st1, e⟩
  cases e <;> simp [hinit]

theorem _init_context_error_family (st : Readability) (b : InitBehavior)
    (e : ReadabilityError) (he : (_init_context st b).2 = some e) :
    ∃ r, e.msg = "Failed to initialize JavaScript context: " ++ r := by
  by_cases hi : st.inited
  · simp [_init_context, hi] at he
  · cases b with
    | ok => simp [_init_context, hi] at he
    | fileNotFound p =>
        simp [_init_context, hi] at he
        exact ⟨"JavaScript file not found: " ++ p, by rw [← he]⟩
    | evalError m =>
        simp [_init_context, hi] at he
        exact ⟨m, by rw [← he]⟩

/-- Message families of parse: initialization failure, JS-reported
parsing failure, and wrapped internal exception. -/
def inParseFamilies (m : String) : Prop :=
  (∃ r, m = "Failed to initialize JavaScript context: " ++ r) ∨
  (∃ r, m = "JavaScript parsing failed: " ++ r) ∨
  (∃ r, m = "Failed to parse HTML content: " ++ r)

/-- Message families of is_probably_readerable. -/
def inCheckFamilies (m : String) : Prop :=
  (∃ r, m = "Failed to initialize JavaScript context: " ++ r) ∨
  (∃ r, m = "JavaScript check failed: " ++ r) ∨
  (∃ r, m = "Failed to check readability: " ++ r)

theorem parseBody_family (st1 : Readability) (f : JSContext → EvalOutcome) :
    (∃ r, parseBody st1 f = Except.ok r) ∨
    (∃ e, parseBody st1 f = Except.error e ∧
      ((∃ m, e.msg = "JavaScript parsing failed: " ++ m) ∨
       (∃ m, e.msg = "Failed to parse HTML content: " ++ m))) := by
  cases hcx : st1.context with
  | none =>
      exact Or.inr ⟨⟨"Failed to parse HTML content: " ++
        "NoneType object has no attribute eval"⟩,
        by simp [parseBody, hcx], Or.inr ⟨_, rfl⟩⟩
  | some ctx =>
    cases hf : f ctx with
    | interrupted m =>
        exact Or.inr ⟨⟨"Failed to parse HTML content: " ++ m⟩,
          by simp [parseBody, hcx, hf], Or.inr ⟨m, rfl⟩⟩
    | raises m =>
        exact Or.inr ⟨⟨"Failed to parse HTML content: " ++ m⟩,
          by simp [parseBody, hcx, hf], Or.inr ⟨m, rfl⟩⟩
    | val conv =>
      by_cases hs : pyTruthy (pyGetD conv "success" (PyVal.bool false)) = true
      · cases hfd : ReadabilityResult.from_dict (pyGet conv "result") with
        | ok r => exact Or.inl ⟨r, by simp [parseBody, hcx, hf, hs, hfd]⟩
        | error m =>
            exact Or.inr ⟨⟨"Failed to parse HTML content: " ++ m⟩,
              by simp [parseBody, hcx, hf, hs, hfd], Or.inr ⟨m, rfl⟩⟩
      · have hs2 : pyTruthy (pyGetD conv "success" (PyVal.bool false)) = false := by
          simpa using hs
        exact Or.inr ⟨⟨"JavaScript parsing failed: " ++
          pyStr (pyGetD conv "error" (PyVal.str "Unknown parsing error"))⟩,
          by simp [parseBody, hcx, hf, hs2], Or.inl ⟨_, rfl⟩⟩

theorem checkBody_family (st1 : Readability) (f : JSContext → EvalOutcome) :
    (∃ b, checkBody st1 f = Except.ok b) ∨
    (∃ e, checkBody st1 f = Except.error e ∧
      ((∃ m, e.msg = "JavaScript check failed: " ++ m) ∨
       (∃ m, e.msg = "Failed to check readability: " ++ m))) := by
  cases hcx : st1.context with
  | none =>
      exact Or.inr ⟨⟨"Failed to check readability: " ++
        "NoneType object has no attribute eval"⟩,
        by simp [checkBody, hcx], Or.inr ⟨_, rfl⟩⟩
  | some ctx =>
    cases hf : f ctx with
    | interrupted m =>
        exact Or.inr ⟨⟨"Failed to check readability: " ++ m⟩,
          by simp [checkBody, hcx, hf], Or.inr ⟨m, rfl⟩⟩
    | raises m =>
        exact Or.inr ⟨⟨"Failed to check readability: " ++ m⟩,
          by simp [checkBody, hcx, hf], Or.inr ⟨m, rfl⟩⟩
    | val conv =>
      by_cases hs : pyTruthy (pyGetD conv "success" (PyVal.bool false)) = true
      · exact Or.inl ⟨pyTruthy (pyGetD conv "result" (PyVal.bool false)),
          by simp [checkBody, hcx, hf, hs]⟩
      · have hs2 : pyTruthy (pyGetD conv "success" (PyVal.bool false)) = false := by
          simpa using hs
        exact Or.inr ⟨⟨"JavaScript check failed: " ++
          pyStr (pyGetD conv "error" (PyVal.str "Unknown error"))⟩,
          by simp [checkBody, hcx, hf, hs2], Or.inl ⟨_, rfl⟩⟩

/-- Claim C1 (amended): parse either raises a ReadabilityError or
returns a fully formed ReadabilityResult; on failure it leaves no
extraction state behind — the post-call instance state is exactly the
post-initialization state whatever the extraction outcome, and the
public configuration memory_limit / time_limit is never mutated.  (The
claim's stronger "mutates no caller-visible state" is refuted by
claim1_counterexample: a failing first call still performs the one-time
initialization writes to _context and _initialized.) -/
theorem claim1_no_partial_result_or_state (st : Readability) (eng : Engine)
    (h u : String) (o : PyVal) :
    (parse st eng h u o).1 = (_init_context st eng.initB).1 ∧
    (parse st eng h u o).1.memory_limit = st.memory_limit ∧
    (parse st eng h u o).1.time_limit = st.time_limit := by
  refine ⟨parse_fst st eng h u o, ?_, ?_⟩ <;> rw [parse_fst st eng h u o]
  · exact (_init_context_limits st eng.initB).1
  · exact (_init_context_limits st eng.initB).2

/-- Claim C1 counterexample: on a fresh instance a failing parse call
does mutate caller-visible instance state: it flips _initialized (read
directly by the repository's own tests) from False to True while failing
with a ReadabilityError. -/
theorem claim1_counterexample :
    (parse defaultReadability engBoom "" "" (PyVal.dict [])).2 =
      Except.error ⟨"JavaScript parsing failed: " ++ "boom"⟩ ∧
    (parse defaultReadability engBoom "" "" (PyVal.dict [])).1.inited = true ∧
    defaultReadability.inited = false :=
  ⟨rfl, rfl, rfl⟩

/-- Claim C2 (amended): every failure of parse is the single exception
type ReadabilityError carrying only a message, and that message falls in
one of three code-level families (initialization failure, JS-reported
parsing failure, wrapped internal exception); the specification's four
failure kinds are not represented as types or tags on the error. -/
theorem claim2_single_error_type (st : Readability) (eng : Engine)
    (h u : String) (o : PyVal) (e : ReadabilityError)
    (hfail : (parse st eng h u o).2 = Except.error e) :
    inParseFamilies e.msg := by
  rcases hinit : _init_context st eng.initB with ⟨st1, e0⟩
  cases e0 with
  | some err =>
      have hthis : (parse st eng h u o).2 = Except.error err := by
        unfold parse; simp [hinit]
      rw [hthis] at hfail
      obtain rfl : err = e := by injection hfail
      exact Or.inl (_init_context_error_family st eng.initB err
        (by rw [hinit]))
  | none =>
      have hp : (parse st eng h u o).2 =
          parseBody st1 (fun ctx => eng.eval ctx h u (normOptions o)) := by
        unfold parse; simp [hinit]
      rw [hp] at hfail
      rcases parseBody_family st1 (fun ctx => eng.eval ctx h u (normOptions o))
        with ⟨r, hr⟩ | ⟨e2, he2, hfam⟩
      · rw [hr] at hfail; exact Except.noConfusion hfail
      · rw [he2] at hfail
        obtain rfl : e2 = e := by injection hfail
        rcases hfam with h1 | h2
        · exact Or.inr (Or.inl h1)
        · exact Or.inr (Or.inr h2)

/-- Witness for claim C2's amended theorem at a concrete failing run. -/
theorem claim2_witness :
    inParseFamilies ("JavaScript parsing failed: " ++ "boom") :=
  claim2_single_error_type defaultReadability engBoom "" "" (PyVal.dict [])
    ⟨"JavaScript parsing failed: " ++ "boom"⟩ rfl

/-- The four failure kinds named by the claim. -/
def specFailureKindTags : List String :=
  ["ParseError", "BelowThreshold", "NoCandidates", "ResourceExhausted"]

/-- Does the character list start with the pattern? -/
def listStarts : List Char → List Char → Bool
  | _, [] => true
  | [], _ :: _ => false
  | a :: as, b :: bs => a == b && listStarts as bs

/-- Does the character list contain the pattern as a contiguous run? -/
def listHasSub : List Char → List Char → Bool
  | [], pat => pat.isEmpty
  | a :: as, pat => listStarts (a :: as) pat || listHasSub as pat

/-- The error a parse call raises when a bundled JavaScript file is
missing during initialization. -/
def missingFileErrorMsg : String :=
  "Failed to initialize JavaScript context: " ++
    ("JavaScript file not found: " ++ "JSDOMParser.js")

/-- Claim C2 counterexample: a concrete failure of parse (missing
bundled JavaScript file) whose returned error is a bare message naming
none of the four claimed kinds — the error does not identify any of the
claimed typed failure classes. -/
theorem claim2_counterexample :
    (parse defaultReadability engNoFile "" "" (PyVal.dict [])).2 =
      Except.error ⟨missingFileErrorMsg⟩ ∧
    specFailureKindTags.all
      (fun t => !(listHasSub missingFileErrorMsg.data t.data)) = true :=
  ⟨rfl, by decide⟩

/-- Claim C3 (amended): is_probably_readerable returns a plain boolean
whenever initialization succeeds and the JavaScript check reports
success; every other outcome raises ReadabilityError with a message in
one of the three check families — failure modes are not limited to
resource exhaustion and are surfaced as exceptions, not booleans. -/
theorem claim3_check_bool_or_error (st : Readability) (eng : Engine)
    (h u : String) (o : PyVal) :
    (∃ b, (is_probably_readerable st eng h u o).2 = Except.ok b) ∨
    (∃ e, (is_probably_readerable st eng h u o).2 = Except.error e ∧
      inCheckFamilies e.msg) := by
  rcases hinit : _init_context st eng.initB with ⟨st1, e0⟩
  cases e0 with
  | some err =>
      have hthis : (is_probably_readerable st eng h u o).2 = Except.error err := by
        unfold is_probably_readerable; simp [hinit]
      exact Or.inr ⟨err, hthis,
        Or.inl (_init_context_error_family st eng.initB err (by rw [hinit]))⟩
  | none =>
      have hp : (is_probably_readerable st eng h u o).2 =
          checkBody st1 (fun ctx => eng.evalCheck ctx h u (normOptions o)) := by
        unfold is_probably_readerable; simp [hinit]
      rcases checkBody_family st1 (fun ctx => eng.evalCheck ctx h u (normOptions o))
        with ⟨b, hb⟩ | ⟨e2, he2, hfam⟩
      · exact Or.inl ⟨b, by rw [hp, hb]⟩
      · refine Or.inr ⟨e2, by rw [hp, he2], ?_⟩
        rcases hfam with h1 | h2
        · exact Or.inr (Or.inl h1)
        · exact Or.inr (Or.inr h2)

/-- Claim C3 counterexample: a concrete is_probably_readerable call that
does not return any boolean but raises ReadabilityError, although no
resource budget was exceeded — the engine's initialization fails on a
missing file before any JavaScript runs (its eval functions never
interrupt and would report success). -/
theorem claim3_counterexample :
    (is_probably_readerable defaultReadability engNoFile "" ""
        (PyVal.dict [])).2 = Except.error ⟨missingFileErrorMsg⟩ ∧
    engNoFile.initB = InitBehavior.fileNotFound "JSDOMParser.js" :=
  ⟨rfl, rfl⟩

/-- Claim C4: calling parse twice with the same markup, url and options
(in particular twice in sequence on the same instance) returns an
identical result the second time, and the second call changes no state:
with the JavaScript core stateless (a pure function of the context and
call arguments, as the spec prescribes), the only cross-call state — the
lazily initialized context — never influences the result value. -/
theorem claim4_parse_idempotent (st : Readability) (eng : Engine)
    (h u : String) (o : PyVal) :
    (parse ((parse st eng h u o).1) eng h u o).2 = (parse st eng h u o).2 ∧
    (parse ((parse st eng h u o).1) eng h u o).1 = (parse st eng h u o).1 := by
  rcases hinit : _init_context st eng.initB with ⟨st1, e⟩
  have hfst : (parse st eng h u o).1 = st1 := by
    rw [parse_fst, hinit]
  have hinit2 : _init_context st1 eng.initB = (st1, e) := by
    have hidem := _init_context_idem st eng.initB
    rw [hinit] at hidem
    exact hidem
  rw [hfst]
  unfold parse
  cases e <;> simp [hinit, hinit2]

/-- Claim C8: the default budgets of Readability.__init__ are 50 MB and
10 seconds; both limits are applied to the freshly created context
before any JavaScript is evaluated (the context an engine call receives
carries exactly memory_limit and time_limit), and when evaluation is
interrupted because a budget is exceeded the run aborts with an error
rather than returning a result. -/
theorem claim8_resource_budgets :
    defaultReadability.memory_limit = 50 * 1024 * 1024 ∧
    defaultReadability.time_limit = 10 ∧
    (∀ (st : Readability) (eng : Engine) (h u : String) (o : PyVal) (m : String),
      st.inited = false →
      eng.eval ⟨st.memory_limit, st.time_limit⟩ h u (normOptions o) =
        EvalOutcome.interrupted m →
      ∃ e, (parse st eng h u o).2 = Except.error e) ∧
    (∀ (st : Readability) (eng : Engine) (h u : String) (o : PyVal) (m : String),
      st.inited = false →
      eng.evalCheck ⟨st.memory_limit, st.time_limit⟩ h u (normOptions o) =
        EvalOutcome.interrupted m →
      ∃ e, (is_probably_readerable st eng h u o).2 = Except.error e) := by
  refine ⟨rfl, rfl, ?_, ?_⟩
  · intro st eng h u o m hinited hint
    rcases hinit : _init_context st eng.initB with ⟨st1, e0⟩
    cases e0 with
    | some err => exact ⟨err, by unfold parse; simp [hinit]⟩
    | none =>
        have hctx : st1.context = some ⟨st.memory_limit, st.time_limit⟩ := by
          have hs := _init_context_sets_context st eng.initB hinited
          rw [hinit] at hs
          exact hs
        refine ⟨⟨"Failed to parse HTML content: " ++ m⟩, ?_⟩
        unfold parse
        simp [hinit, parseBody, hctx, hint]
  · intro st eng h u o m hinited hint
    rcases hinit : _init_context st eng.initB with ⟨st1, e0⟩
    cases e0 with
    | some err => exact ⟨err, by unfold is_probably_readerable; simp [hinit]⟩
    | none =>
        have hctx : st1.context = some ⟨st.memory_limit, st.time_limit⟩ := by
          have hs := _init_context_sets_context st eng.initB hinited
          rw [hinit] at hs
          exact hs
        refine ⟨⟨"Failed to check readability: " ++ m⟩, ?_⟩
        unfold is_probably_readerable
        simp [checkBody, hinit, hctx, hint]

/-- Witness for claim C8 at a concrete budget-exceeded run on a fresh
default instance. -/
theorem claim8_witness :
    (∃ e, (parse defaultReadability engInterrupt "" "" (PyVal.dict [])).2 =
      Except.error e) ∧
    (∃ e, (is_probably_readerable defaultReadability engInterrupt "" ""
        (PyVal.dict [])).2 = Except.error e) :=
  ⟨claim8_resource_budgets.2.2.1 defaultReadability engInterrupt "" ""
     (PyVal.dict []) "interrupted" rfl rfl,
   claim8_resource_budgets.2.2.2 defaultReadability engInterrupt "" ""
     (PyVal.dict []) "interrupted" rfl rfl⟩

/-- Claim C9 (amended): every exception escaping parse or
is_probably_readerable is a ReadabilityError, and so is every exception
escaping parse_from_url whenever the requests import succeeds; when
that import fails the except clause itself raises UnboundLocalError, which
escapes unwrapped (see claim9_counterexample). -/
theorem claim9_errors_wrapped :
    (∀ (st : Readability) (eng : Engine) (h u : String) (o : PyVal),
      (∃ r, (parse st eng h u o).2 = Except.ok r) ∨
      (∃ e, (parse st eng h u o).2 = Except.error e)) ∧
    (∀ (st : Readability) (eng : Engine) (h u : String) (o : PyVal),
      (∃ b, (is_probably_readerable st eng h u o).2 = Except.ok b) ∨
      (∃ e, (is_probably_readerable st eng h u o).2 = Except.error e)) ∧
    (∀ (st : Readability) (eng : Engine) (ftch : FetchOutcome)
        (url : String) (o : PyVal),
      (∃ r, (parse_from_url st eng ImportOutcome.ok ftch url o).2 =
        Except.ok r) ∨
      (∃ e, (parse_from_url st eng ImportOutcome.ok ftch url o).2 =
        Except.error (PyExc.readability e))) := by
  refine ⟨?_, ?_, ?_⟩
  · intro st eng h u o
    cases hp : (parse st eng h u o).2 with
    | ok r => exact Or.inl ⟨r, rfl⟩
    | error e => exact Or.inr ⟨e, rfl⟩
  · intro st eng h u o
    cases hp : (is_probably_readerable st eng h u o).2 with
    | ok b => exact Or.inl ⟨b, rfl⟩
    | error e => exact Or.inr ⟨e, rfl⟩
  · intro st eng ftch url o
    cases ftch with
    | ok text =>
        rcases hp : parse st eng text url o with ⟨st1, res⟩
        cases res with
        | ok r => exact Or.inl ⟨r, by unfold parse_from_url; simp [hp]⟩
        | error e => exact Or.inr ⟨e, by unfold parse_from_url; simp [hp]⟩
    | httpError m => exact Or.inr ⟨_, rfl⟩
    | requestExc m => exact Or.inr ⟨_, rfl⟩
    | otherExc m => exact Or.inr ⟨_, rfl⟩

/-- Claim C9 counterexample: when the `import requests` inside
parse_from_url's try block fails, the escaping exception is an
UnboundLocalError raised while evaluating the first except clause — not
a ReadabilityError. -/
theorem claim9_counterexample :
    (parse_from_url defaultReadability engBoom
        (ImportOutcome.failed "No module named requests")
        (FetchOutcome.ok "") "https://example.com" (PyVal.dict [])).2 =
      Except.error (PyExc.other "UnboundLocalError"
        "local variable requests referenced before assignment") :=
  rfl

/-!
SpecCore: the content-extraction pipeline of the JavaScript core.  The
files JSDOMParser.js / Readability.js / readability_wrapper.js are not
part of the Python sources, so the parts of the pipeline that claim C5
depends on — the readability pre-check of spec §4.3 and the
below-threshold test of spec §4.5 — are modelled from the specification.
-/

/-- Modelled from the spec (§3 Data Model): a document tree of elements
(lowercase tag, ordered children) and text nodes.  Only character counts
matter to the modelled properties, so a text node carries its length. -/
inductive HNode where
  | txt (len : Nat)
  | elem (tag : String) (children : List HNode)

mutual

/-- Modelled from the spec: total text length of a node (sum of the text
node lengths below it). -/
def textLen : HNode → Nat
  | HNode.txt n => n
  | HNode.elem _ cs => textLenL cs

def textLenL : List HNode → Nat
  | [] => 0
  | c :: cs => textLen c + textLenL cs

end

mutual

/-- Modelled from the spec (glossary: link density): the anchor-text
length of a node — text lying under an `a` element. -/
def anchorLen : HNode → Nat
  | HNode.txt _ => 0
  | HNode.elem t cs => if t = "a" then textLenL cs else anchorLenL cs

def anchorLenL : List HNode → Nat
  | [] => 0
  | c :: cs => anchorLen c + anchorLenL cs

end

/-- Modelled from the spec (§4.3): paragraph-like elements and a small
set of equivalent block tags; the spec fixes the role of the set, not
its exact members. -/
def paragraphLike (t : String) : Bool :=
  t == "p" || t == "pre" || t == "blockquote" || t == "article"

/-- Modelled from the spec (§4.3): a node qualifies for the pre-check
scan when it is paragraph-like and its link density (anchor text over
total text) is under the fixed ceiling num/den. -/
def qualifies (num den : Nat) (n : HNode) : Bool :=
  match n with
  | HNode.txt _ => false
  | HNode.elem t cs =>
      paragraphLike t &&
        decide (anchorLen (HNode.elem t cs) * den < num * textLen (HNode.elem t cs))

mutual

/-- Modelled from the spec (§4.3): the text accumulated by the pre-check
scan.  A qualifying node contributes its whole text and the scan does
not descend into it (its text is already counted, so no character is
accumulated twice); otherwise the scan descends.  The scan limit of the
spec is omitted: it can only lower the accumulated total, so a limited
scan reaching the threshold implies this one does. -/
def scanSum (num den : Nat) : HNode → Nat
  | HNode.txt _ => 0
  | HNode.elem t cs =>
      if qualifies num den (HNode.elem t cs) then textLen (HNode.elem t cs)
      else scanSumL num den cs

def scanSumL (num den : Nat) : List HNode → Nat
  | [] => 0
  | c :: cs => scanSum num den c + scanSumL num den cs

end

/-- Modelled from the spec (§4.3): the pre-check returns true exactly
when the accumulated qualifying text exceeds the configured character
threshold. -/
def isProbablyReaderableModel (charThreshold num den : Nat) (doc : HNode) : Bool :=
  decide (charThreshold < scanSum num den doc)

mutual

/-- Modelled from the spec (§4.4 step 1): does the subtree contain a
scoring seed (a content-bearing, paragraph-like element)? -/
def containsSeed : HNode → Bool
  | HNode.txt _ => false
  | HNode.elem t cs => paragraphLike t || containsSeedL cs

def containsSeedL : List HNode → Bool
  | [] => false
  | c :: cs => containsSeed c || containsSeedL cs

end

mutual

/-- Modelled from the spec (§4.4 step 3): every ancestor of a seed
receives a propagated score and is a candidate; this collects the text
lengths of all candidates, i.e. of every element with a seed strictly
below it. -/
def candidateTexts : HNode → List Nat
  | HNode.txt _ => []
  | HNode.elem _ cs =>
      (if containsSeedL cs then [textLenL cs] else []) ++ candidateTextsL cs

def candidateTextsL : List HNode → List Nat
  | [] => []
  | c :: cs => candidateTexts c ++ candidateTextsL cs

end

/-- Outcome of the modelled extraction, as far as claim C5 needs it. -/
inductive ExtractResult where
  | ok (articleTextLen : Nat)
  | belowThreshold
  | noCandidates

/-- Modelled from the spec (§4.5, §7): extraction fails with
NoCandidates when the document has no scoreable candidates at all, with
BelowThreshold when no candidate reaches the configured character
threshold, and otherwise succeeds. -/
def extractOutcome (charThreshold : Nat) (doc : HNode) : ExtractResult :=
  let cands := candidateTexts doc
  if cands.isEmpty then ExtractResult.noCandidates
  else if cands.all (fun c => decide (c < charThreshold)) then
    ExtractResult.belowThreshold
  else ExtractResult.ok (cands.foldr Nat.max 0)

mutual

theorem scanSum_le_textLen (num den : Nat) :
    ∀ n : HNode, scanSum num den n ≤ textLen n
  | HNode.txt _ => Nat.zero_le _
  | HNode.elem t cs => by
      by_cases hq : qualifies num den (HNode.elem t cs) = true
      · simp [scanSum, hq]
      · have h2 : qualifies num den (HNode.elem t cs) = false := by simpa using hq
        have hih := scanSumL_le_textLenL num den cs
        simpa [scanSum, h2, textLen] using hih

theorem scanSumL_le_textLenL (num den : Nat) :
    ∀ l : List HNode, scanSumL num den l ≤ textLenL l
  | [] => Nat.le_refl _
  | c :: cs => by
      have h1 := scanSum_le_textLen num den c
      have h2 := scanSumL_le_textLenL num den cs
      simpa [scanSumL, textLenL] using Nat.add_le_add h1 h2

end

mutual

theorem candidateTexts_seed :
    ∀ n : HNode, candidateTexts n ≠ [] → containsSeed n = true
  | HNode.txt _ => by intro h; simp [candidateTexts] at h
  | HNode.elem t cs => by
      intro h
      by_cases hc : containsSeedL cs = true
      · simp [containsSeed, hc]
      · have hc2 : containsSeedL cs = false := by simpa using hc
        have h2 : candidateTextsL cs ≠ [] := by
          simpa [candidateTexts, hc2] using h
        have hseed := candidateTextsL_seed cs h2
        simp [hseed] at hc2

theorem candidateTextsL_seed :
    ∀ l : List HNode, candidateTextsL l ≠ [] → containsSeedL l = true
  | [] => by intro h; simp [candidateTextsL] at h
  | c :: cs => by
      intro h
      by_cases h1 : candidateTexts c = []
      · have h2 : candidateTextsL cs ≠ [] := by
          simpa [candidateTextsL, h1] using h
        simp [containsSeedL, candidateTextsL_seed cs h2]
      · simp [containsSeedL, candidateTexts_seed c h1]

end

theorem root_candidate (t : String) (cs : List HNode)
    (h : candidateTexts (HNode.elem t cs) ≠ []) :
    textLenL cs ∈ candidateTexts (HNode.elem t cs) := by
  by_cases hc : containsSeedL cs = true
  · simp [candidateTexts, hc]
  · have hc2 : containsSeedL cs = false := by simpa using hc
    have h2 : candidateTextsL cs ≠ [] := by
      simpa [candidateTexts, hc2] using h
    have hseed := candidateTextsL_seed cs h2
    simp [hseed] at hc2

/-- Claim C5 (spec-modelled): whenever the pre-check returns true on a
document, extraction on the same document with the same character
threshold does not fail with BelowThreshold: the accumulated qualifying
text never exceeds the root's text, the root of any document with a
candidate is itself a candidate, and a candidate whose text reaches the
threshold rules BelowThreshold out (NoCandidates remains possible and is
allowed by the claim). -/
theorem claim5_monotonic_precheck (charThreshold num den : Nat) (doc : HNode)
    (h : isProbablyReaderableModel charThreshold num den doc = true) :
    extractOutcome charThreshold doc ≠ ExtractResult.belowThreshold := by
  have hlt : charThreshold < scanSum num den doc := by
    simpa [isProbablyReaderableModel] using h
  cases doc with
  | txt s => simp [scanSum] at hlt
  | elem t cs =>
      have hle : scanSum num den (HNode.elem t cs) ≤ textLenL cs := by
        have hs := scanSum_le_textLen num den (HNode.elem t cs)
        simpa [textLen] using hs
      have hroot : charThreshold < textLenL cs := Nat.lt_of_lt_of_le hlt hle
      unfold extractOutcome
      by_cases hemp : (candidateTexts (HNode.elem t cs)).isEmpty = true
      · simp [hemp]
      · have hne : candidateTexts (HNode.elem t cs) ≠ [] := by
          simpa [List.isEmpty_iff] using hemp
        have hmem := root_candidate t cs hne
        have hall : (candidateTexts (HNode.elem t cs)).all
            (fun c => decide (c < charThreshold)) = false := by
          rcases hb : (candidateTexts (HNode.elem t cs)).all
              (fun c => decide (c < charThreshold)) with _ | _
          · rfl
          · rw [List.all_eq_true] at hb
            have hx := hb _ hmem
            simp at hx
            exact absurd hx (Nat.not_lt.mpr (Nat.le_of_lt hroot))
        have hemp2 : (candidateTexts (HNode.elem t cs)).isEmpty = false := by
          simpa using hemp
        simp [hemp2, hall]

/-- Concrete document for claim C5's witness: an html/body wrapper
around one 600-character paragraph. -/
def wdoc : HNode :=
  HNode.elem "html" [HNode.elem "body" [HNode.elem "p" [HNode.txt 600]]]

/-- Witness for claim C5 at the concrete document, threshold 500 and
link-density ceiling 1/3. -/
theorem claim5_witness :
    isProbablyReaderableModel 500 1 3 wdoc = true ∧
    extractOutcome 500 wdoc ≠ ExtractResult.belowThreshold :=
  ⟨by decide, claim5_monotonic_precheck 500 1 3 wdoc (by decide)⟩

end FastReadability



